import Mathlib

/-!
Verification of package `lock` (a downgradeable read/write spinlock) against
its specification.  The repository has two revisions of the same primitive:

* `src/lock.go` — state word is a `uint64`;
* `src/unnamed/part_000` — an earlier revision whose state word is a `uint32`
  and whose write-unlock-to-read operation is named `WUnlock` instead of
  `Downgrade`.

The state word is modelled as a `Nat` reduced modulo the word width
(`2^64` resp. `2^32`); every Go `atomic.AddUintN(p, d)` becomes
`(s + d) % 2^width`, with the added constant written exactly as the source
spells it (`^uint64(0)` is `2^64 - 1`, etc.).  Atomicity is modelled by each
operation being a single transition on the state.  The two spin loops are
given a sequential embedding: `Lock`'s CAS loop takes explicit fuel and
returns `none` while still spinning; `RLock`'s load loop consumes an
environment-supplied list of observed state values.
-/

/-- Word width of the `uint64` revision (`src/lock.go`). -/
def w64 : Nat := 2 ^ 64

/-- Word width of the `uint32` revision (`src/unnamed/part_000`). -/
def w32 : Nat := 2 ^ 32

/-- Lock of `src/lock.go`:
`for !atomic.CompareAndSwapUint64((*uint64)(rw), 0, 1) {}`.
The loop body re-runs while the CAS fails; when the CAS succeeds the state
becomes `1` and `Lock` returns.  Sequentially the state cannot change between
failed attempts, so with state `s ≠ 0` the loop runs forever (`none` for every
fuel). -/
def lock64 : Nat → Nat → Option Nat
  | 0, _ => none
  | fuel + 1, s => if s = 0 then some (1 % w64) else lock64 fuel s

/-- Lock of `src/unnamed/part_000`:
`for atomic.CompareAndSwapUint32((*uint32)(rw), 0, 1) {}`.
Note the missing negation: the loop body re-runs while the CAS *succeeds*;
the first failed CAS exits the loop and `Lock` returns with the state as it
stands. -/
def lock32 : Nat → Nat → Option Nat
  | 0, _ => none
  | fuel + 1, s => if s = 0 then lock32 fuel (1 % w32) else some s

/-- Unlock of `src/lock.go`: `atomic.AddUint64((*uint64)(rw), (^uint64(0))-1)`,
where `^uint64(0) = 2^64 - 1`. -/
def unlock64 (s : Nat) : Nat := (s + ((w64 - 1) - 1)) % w64

/-- Unlock of `src/unnamed/part_000`:
`atomic.AddUint32((*uint32)(rw), ^uint32(0) - 1)`. -/
def unlock32 (s : Nat) : Nat := (s + ((w32 - 1) - 1)) % w32

/-- The single fetch-add performed by RLock of `src/lock.go`:
`atomic.AddUint64((*uint64)(rw), 2)` (the returned post-add value is the new
state). -/
def rlock64add (s : Nat) : Nat := (s + 2) % w64

/-- The single fetch-add performed by RLock of `src/unnamed/part_000`. -/
def rlock32add (s : Nat) : Nat := (s + 2) % w32

/-- The spin loop shared by both RLock revisions:
`for atomic.LoadUint64((*uint64)(rw))&1 != 0 {}`.
Successive loads are supplied by the environment as a list; the loop exits
(`true`) at the first observed value with bit 0 clear, and is still spinning
(`false`) if every supplied load had bit 0 set. -/
def spinEven : List Nat → Bool
  | [] => false
  | v :: rest => if v &&& 1 ≠ 0 then spinEven rest else true

/-- RLock of `src/lock.go`:
`if atomic.AddUint64((*uint64)(rw), 2)&1 != 0 { for ... {} }`.
The value carried by `some` is the state as updated by this caller's single
fetch-add; `none` means the caller is still spinning. -/
def rlock64 (s : Nat) (loads : List Nat) : Option Nat :=
  let t := rlock64add s
  if t &&& 1 ≠ 0 then (if spinEven loads then some t else none) else some t

/-- RLock of `src/unnamed/part_000` (same code at width 32). -/
def rlock32 (s : Nat) (loads : List Nat) : Option Nat :=
  let t := rlock32add s
  if t &&& 1 ≠ 0 then (if spinEven loads then some t else none) else some t

/-- RUnlock of `src/lock.go`:
`atomic.AddUint64((*uint64)(rw), (^uint64(0))-2)`. -/
def runlock64 (s : Nat) : Nat := (s + ((w64 - 1) - 2)) % w64

/-- RUnlock of `src/unnamed/part_000`:
`atomic.AddUint32((*uint32)(rw), ^uint32(0) - 2)`. -/
def runlock32 (s : Nat) : Nat := (s + ((w32 - 1) - 2)) % w32

/-- Downgrade of `src/lock.go`: `atomic.AddUint64((*uint64)(rw), 1)`. -/
def downgrade64 (s : Nat) : Nat := (s + 1) % w64

/-- WUnlock of `src/unnamed/part_000`: `atomic.AddUint32((*uint32)(rw), 1)`. -/
def wunlock32 (s : Nat) : Nat := (s + 1) % w32

/-- The 64-bit Lock loop keeps retrying its CAS: sequentially, from a nonzero
state it never returns, whatever the fuel. -/
theorem lock64_spins_of_ne (f : Nat) {s : Nat} (h : s ≠ 0) : lock64 f s = none := by
  induction f with
  | zero => rfl
  | succ n ih => simp [lock64, h, ih]

/-- The 32-bit Lock loop exits at the first failed CAS: from a nonzero state
it returns at once with the state unchanged. -/
theorem lock32_exits_of_ne (f : Nat) {s : Nat} (h : s ≠ 0) :
    lock32 (f + 1) s = some s := by
  simp [lock32, h]

/-- The 32-bit Lock from state 0 installs 1 with its first CAS, then exits at
the second (now failing) CAS. -/
theorem lock32_of_zero (f : Nat) : lock32 (f + 2) 0 = some 1 := by
  have h1 : (1 : Nat) % w32 = 1 := by decide
  have := lock32_exits_of_ne f (s := 1) (by decide)
  simp [lock32, h1, this]

/-- The 64-bit Lock from state 0 succeeds with its first CAS and returns. -/
theorem lock64_of_zero (f : Nat) : lock64 (f + 1) 0 = some 1 := by
  have h1 : (1 : Nat) % w64 = 1 := by decide
  simp [lock64, h1]

/-- Bit 0 of the post-add value is the parity of `s`: both word widths are
even, so reduction modulo the width preserves parity. -/
theorem rlock64add_and_one (s : Nat) : rlock64add s &&& 1 = s % 2 := by
  have hdvd : (2 : Nat) ∣ w64 := ⟨2 ^ 63, by norm_num [w64]⟩
  rw [Nat.and_one_is_mod, rlock64add, Nat.mod_mod_of_dvd _ hdvd]
  omega

/-- Parity of the 32-bit post-add value, as for `rlock64add_and_one`. -/
theorem rlock32add_and_one (s : Nat) : rlock32add s &&& 1 = s % 2 := by
  have hdvd : (2 : Nat) ∣ w32 := ⟨2 ^ 31, by norm_num [w32]⟩
  rw [Nat.and_one_is_mod, rlock32add, Nat.mod_mod_of_dvd _ hdvd]
  omega

/-- Closed form of the 64-bit `RLock`: the branch on bit 0 of the post-add
value is a branch on the parity of `s`. -/
theorem rlock64_eq (s : Nat) (loads : List Nat) :
    rlock64 s loads =
      if s % 2 = 0 then some (rlock64add s)
      else if spinEven loads then some (rlock64add s) else none := by
  show (if rlock64add s &&& 1 ≠ 0 then
          (if spinEven loads then some (rlock64add s) else none)
        else some (rlock64add s)) = _
  rw [rlock64add_and_one]
  by_cases h : s % 2 = 0
  · rw [if_neg (by omega), if_pos h]
  · rw [if_pos (by omega), if_neg h]

/-- Closed form of the 32-bit `RLock`, as for `rlock64_eq`. -/
theorem rlock32_eq (s : Nat) (loads : List Nat) :
    rlock32 s loads =
      if s % 2 = 0 then some (rlock32add s)
      else if spinEven loads then some (rlock32add s) else none := by
  show (if rlock32add s &&& 1 ≠ 0 then
          (if spinEven loads then some (rlock32add s) else none)
        else some (rlock32add s)) = _
  rw [rlock32add_and_one]
  by_cases h : s % 2 = 0
  · rw [if_neg (by omega), if_pos h]
  · rw [if_pos (by omega), if_neg h]

/-- C1.  The claim says `Unlock` decrements the state by exactly 1, so a
`Lock`/`Unlock` pair from state 0 returns the state to 0.  Evaluating the code
at the failing input: after `Lock` the state is 1, and `Unlock` adds
`(^uint64(0))-1 = 2^64 - 2` (two's-complement −2), leaving `2^64 - 1` — not 0,
with bit 0 still set. -/
theorem unlock_of_one_not_zero :
    unlock64 1 = w64 - 1 ∧ unlock64 1 ≠ 0 ∧ unlock64 1 &&& 1 = 1 := by
  refine ⟨by decide, by decide, by decide⟩

/-- C2.  The claim says `RUnlock` subtracts exactly 2, so from state 2 (one
read holder) it yields 0.  Evaluating the code at the failing input: `RUnlock`
adds `(^uint64(0))-2 = 2^64 - 3` (two's-complement −3), so from state 2 it
leaves `2^64 - 1`, not 0. -/
theorem runlock_of_two_not_zero :
    runlock64 2 = w64 - 1 ∧ runlock64 2 ≠ 0 := by
  refine ⟨by decide, by decide⟩

/-- C3.  The claim says `Lock` never returns without having performed a
successful 0→1 CAS, retrying while the state is nonzero.  The 64-bit revision
does this, but the 32-bit revision's loop condition lacks the negation:
evaluating it at state 1, `Lock` returns at once (even with fuel to spare),
leaving the state untouched and having performed no 0→1 transition. -/
theorem lock32_returns_without_cas :
    lock32 5 1 = some 1 ∧ lock32 1 1 = some 1 := by
  refine ⟨by decide, by decide⟩

/-- C4, counterexample.  The two revisions do not have the same return/spin
behavior at every state: with the same fuel and starting state 1, the 32-bit
`Lock` has already returned (leaving the state untouched) while the 64-bit
`Lock` is still spinning on its CAS. -/
theorem lock_revisions_differ :
    lock32 3 1 = some 1 ∧ lock64 3 1 = none := by
  refine ⟨by decide, by decide⟩

/-- C4, amended.  The two revisions agree, modulo word width, on `Unlock`,
`RUnlock`, `RLock`, and `Downgrade`/`WUnlock` (each performs the same additive
state transition and the same spin/return behavior), and their `Lock`s reach
the same final state 1 when started from 0; but for every nonzero starting
state the 32-bit `Lock` returns immediately with the state unchanged, while
the 64-bit `Lock` spins without returning. -/
theorem revisions_agree_except_lock :
    ∀ s : Nat,
      unlock32 s = (s + (w32 - 2)) % w32 ∧ unlock64 s = (s + (w64 - 2)) % w64 ∧
      runlock32 s = (s + (w32 - 3)) % w32 ∧ runlock64 s = (s + (w64 - 3)) % w64 ∧
      wunlock32 s = (s + 1) % w32 ∧ downgrade64 s = (s + 1) % w64 ∧
      rlock32add s = (s + 2) % w32 ∧ rlock64add s = (s + 2) % w64 ∧
      (∀ loads : List Nat,
        (rlock32 s loads).isSome = (decide (s % 2 = 0) || spinEven loads) ∧
        (rlock64 s loads).isSome = (decide (s % 2 = 0) || spinEven loads)) ∧
      (∀ f : Nat, lock64 (f + 1) 0 = some 1 ∧ lock32 (f + 2) 0 = some 1) ∧
      (s ≠ 0 → ∀ f : Nat, lock32 (f + 1) s = some s ∧ lock64 f s = none) := by
  intro s
  refine ⟨?_, ?_, ?_, ?_, rfl, rfl, rfl, rfl, ?_, ?_, ?_⟩
  · show (s + (w32 - 1 - 1)) % w32 = (s + (w32 - 2)) % w32
    norm_num [w32]
  · show (s + (w64 - 1 - 1)) % w64 = (s + (w64 - 2)) % w64
    norm_num [w64]
  · show (s + (w32 - 1 - 2)) % w32 = (s + (w32 - 3)) % w32
    norm_num [w32]
  · show (s + (w64 - 1 - 2)) % w64 = (s + (w64 - 3)) % w64
    norm_num [w64]
  · intro loads
    constructor
    · by_cases h : s % 2 = 0
      · rw [rlock32_eq, if_pos h]
        simp [h]
      · rw [rlock32_eq, if_neg h]
        cases hs : spinEven loads <;> simp [h, hs]
    · by_cases h : s % 2 = 0
      · rw [rlock64_eq, if_pos h]
        simp [h]
      · rw [rlock64_eq, if_neg h]
        cases hs : spinEven loads <;> simp [h, hs]
  · exact fun f => ⟨lock64_of_zero f, lock32_of_zero f⟩
  · exact fun h f => ⟨lock32_exits_of_ne f h, lock64_spins_of_ne f h⟩

/-- C4, witness for the amended theorem at a concrete nonzero state. -/
theorem revisions_agree_except_lock_witness :
    lock32 1 7 = some 7 ∧ lock64 0 7 = none :=
  ((revisions_agree_except_lock 7).2.2.2.2.2.2.2.2.2.2 (by decide) 0)

/-- C5.  `RLock` performs exactly one fetch-add of 2: whenever it returns, the
state as updated by this caller is exactly `(s + 2)` modulo the word width; if
bit 0 of the post-add value is 0 it returns immediately regardless of any
later loads, and if bit 0 is 1 it returns exactly when the spin loop observes
a state value with bit 0 clear, without adding again. -/
theorem rlock_effect_spec :
    ∀ (s : Nat) (loads : List Nat),
      (∀ t, rlock64 s loads = some t → t = (s + 2) % w64) ∧
      (rlock64add s &&& 1 = 0 → rlock64 s loads = some (rlock64add s)) ∧
      (rlock64add s &&& 1 ≠ 0 → ((rlock64 s loads).isSome ↔ spinEven loads = true)) ∧
      (∀ t, rlock32 s loads = some t → t = (s + 2) % w32) ∧
      (rlock32add s &&& 1 = 0 → rlock32 s loads = some (rlock32add s)) ∧
      (rlock32add s &&& 1 ≠ 0 → ((rlock32 s loads).isSome ↔ spinEven loads = true)) := by
  intro s loads
  refine ⟨?_, ?_, ?_, ?_, ?_, ?_⟩
  · intro t ht
    rw [rlock64_eq] at ht
    by_cases h : s % 2 = 0
    · rw [if_pos h] at ht
      exact (Option.some_inj.mp ht).symm
    · rw [if_neg h] at ht
      by_cases hs : spinEven loads = true
      · rw [if_pos hs] at ht
        exact (Option.some_inj.mp ht).symm
      · rw [if_neg hs] at ht
        simp at ht
  · intro h
    rw [rlock64add_and_one] at h
    rw [rlock64_eq, if_pos h]
  · intro h
    rw [rlock64add_and_one] at h
    rw [rlock64_eq, if_neg h]
    cases hs : spinEven loads <;> simp [hs]
  · intro t ht
    rw [rlock32_eq] at ht
    by_cases h : s % 2 = 0
    · rw [if_pos h] at ht
      exact (Option.some_inj.mp ht).symm
    · rw [if_neg h] at ht
      by_cases hs : spinEven loads = true
      · rw [if_pos hs] at ht
        exact (Option.some_inj.mp ht).symm
      · rw [if_neg hs] at ht
        simp at ht
  · intro h
    rw [rlock32add_and_one] at h
    rw [rlock32_eq, if_pos h]
  · intro h
    rw [rlock32add_and_one] at h
    rw [rlock32_eq, if_neg h]
    cases hs : spinEven loads <;> simp [hs]

/-- C5, witness: immediate return at even post-add, spin at odd post-add, and
the returned state is the +2 update, each at concrete inputs. -/
theorem rlock_effect_spec_witness :
    rlock64 0 [] = some (rlock64add 0) ∧
    ((rlock64 1 []).isSome ↔ spinEven [] = true) ∧ (2 : Nat) = (0 + 2) % w64 :=
  ⟨(rlock_effect_spec 0 []).2.1 (by decide),
   (rlock_effect_spec 1 []).2.2.1 (by decide),
   (rlock_effect_spec 0 []).1 2 (by decide)⟩

/-- C6.  `Downgrade` (64-bit) and `WUnlock` (32-bit) add exactly 1 in a single
atomic step (one transition, so no intermediate unlocked state exists); from
the write-locked state 1 this yields 2: bit 0 clears and the reader field
(the bits above bit 0) becomes one slot. -/
theorem downgrade_adds_one :
    (∀ s : Nat, downgrade64 s = (s + 1) % w64 ∧ wunlock32 s = (s + 1) % w32) ∧
    downgrade64 1 = 2 ∧ downgrade64 1 &&& 1 = 0 ∧ downgrade64 1 >>> 1 = 1 ∧
    wunlock32 1 = 2 := by
  refine ⟨fun s => ⟨rfl, rfl⟩, by decide, by decide, by decide, by decide⟩

/-- C7.  Evaluating the code along the scenario trace from state 0: `Lock`
gives 1, the second caller's `RLock` fetch-add gives 3 (and spins), the
writer's `Downgrade` gives 4 — all as the claim says — but the first `RUnlock`
then gives 1 (not 2, since `RUnlock` adds `2^64 - 3`), and the second gives
`2^64 - 2` (not 0). -/
theorem downgrade_trace_states :
    lock64 1 0 = some 1 ∧ rlock64add 1 = 3 ∧ downgrade64 3 = 4 ∧
    runlock64 4 = 1 ∧ runlock64 1 = w64 - 2 := by
  refine ⟨by decide, by decide, by decide, by decide, by decide⟩

/-- C8.  Evaluating both sequences from state 0: `Lock` gives 1, `Downgrade`
gives 2, `RUnlock` gives `2^64 - 1`; a plain `RLock` gives 2 (no spin) and
`RUnlock` gives the same `2^64 - 1`.  The two final states are indeed
identical, but neither is the unlocked state 0 and bit 0 is set in both,
because `RUnlock` adds `2^64 - 3` instead of subtracting 2. -/
theorem downgrade_runlock_vs_rlock_runlock :
    lock64 1 0 = some 1 ∧ downgrade64 1 = 2 ∧ rlock64 0 [] = some 2 ∧
    runlock64 (downgrade64 1) = runlock64 2 ∧
    runlock64 2 = w64 - 1 ∧ (w64 - 1) &&& 1 = 1 ∧ w64 - 1 ≠ 0 := by
  refine ⟨by decide, by decide, by decide, rfl, by decide, by decide, by decide⟩

/-- C9.  `Unlock`, `RUnlock`, and `Downgrade`/`WUnlock` are total functions on
every state word value: each applies one fixed additive update with no
precondition check, no branch, and no error path, and each still silently
alters the state when called on the unlocked state 0. -/
theorem release_ops_total_unconditional :
    ∀ s : Nat,
      unlock64 s = (s + ((w64 - 1) - 1)) % w64 ∧
      runlock64 s = (s + ((w64 - 1) - 2)) % w64 ∧
      downgrade64 s = (s + 1) % w64 ∧
      unlock32 s = (s + ((w32 - 1) - 1)) % w32 ∧
      runlock32 s = (s + ((w32 - 1) - 2)) % w32 ∧
      wunlock32 s = (s + 1) % w32 ∧
      unlock64 0 ≠ 0 ∧ runlock64 0 ≠ 0 ∧ downgrade64 0 ≠ 0 := by
  exact fun s =>
    ⟨rfl, rfl, rfl, rfl, rfl, rfl, by decide, by decide, by decide⟩

/-- C10.  Sequential termination: `Lock` from state 0 returns after its first
successful CAS at either width (any fuel suffices); `RLock` from any even
state returns immediately after its single fetch-add, with no spin and no
dependence on later loads; and the three release operations are single total
updates whose results stay inside the word. -/
theorem sequential_termination :
    (∀ f : Nat, lock64 (f + 1) 0 = some 1 ∧ lock32 (f + 2) 0 = some 1) ∧
    (∀ (s : Nat) (loads : List Nat), s % 2 = 0 →
      rlock64 s loads = some (rlock64add s) ∧
      rlock32 s loads = some (rlock32add s)) ∧
    (∀ s : Nat, unlock64 s < w64 ∧ runlock64 s < w64 ∧ downgrade64 s < w64) := by
  refine ⟨fun f => ⟨lock64_of_zero f, lock32_of_zero f⟩, ?_, ?_⟩
  · intro s loads h
    constructor
    · rw [rlock64_eq, if_pos h]
    · rw [rlock32_eq, if_pos h]
  · intro s
    refine ⟨?_, ?_, ?_⟩ <;> exact Nat.mod_lt _ (by norm_num [w64])

/-- C10, witness: termination at concrete inputs, with the even-state
hypothesis discharged at state 2. -/
theorem sequential_termination_witness :
    lock64 1 0 = some 1 ∧ rlock64 2 [] = some (rlock64add 2) :=
  ⟨(sequential_termination.1 0).1,
   (sequential_termination.2.1 2 [] (by decide)).1⟩
